import Mathlib

/-!
Verification of the stealth extraction engine of this repository against its
natural-language specification.  The Python source is shallowly embedded:
strings become `List Char`, Python `int` becomes `Int` or `Nat`, Python
`float` values that the claims exercise exactly become `ℚ`, `None`-able
values become `Option`, and the global pseudo-random generator of the
`random` module becomes an explicitly threaded deterministic state.
Each definition is translated from the corresponding Python function,
keeping its name where Lean allows.
-/

/-! ## Character and string helpers (Python `str` primitives) -/

/-- The whitespace characters stripped by Python `str.strip()` (ASCII part). -/
def pyIsSpace (c : Char) : Bool :=
  c = ' ' || c = '\t' || c = '\n' || c = '\r' || c = '\x0b' || c = '\x0c'

/-- Remove the maximal whitespace run at the front of a character list. -/
def dropSpace : List Char → List Char
  | [] => []
  | c :: cs => if pyIsSpace c then dropSpace cs else c :: cs

/-- Python `str.strip()`: remove leading and trailing whitespace. -/
def pyStrip (s : List Char) : List Char :=
  ((dropSpace s).reverse |> dropSpace).reverse

/-- Python `str.lower()` (ASCII case folding, which is all the source uses). -/
def pyLower (s : List Char) : List Char :=
  s.map Char.toLower

/-- Python `str.startswith(p)`. -/
def startsWithList : List Char → List Char → Bool
  | [], _ => true
  | _ :: _, [] => false
  | a :: as, b :: bs => a == b && startsWithList as bs

/-- Python `str.endswith(t)`: `endsWithList t s` holds when `s` ends with `t`. -/
def endsWithList (t s : List Char) : Bool :=
  startsWithList t.reverse s.reverse

/-- Python substring test `needle in hay`. -/
def hasSub (needle : List Char) : List Char → Bool
  | [] => startsWithList needle []
  | c :: cs => startsWithList needle (c :: cs) || hasSub needle cs

/-- Split a character list at the first occurrence of `sep`, if any. -/
def splitFirstAt (sep : Char) : List Char → Option (List Char × List Char)
  | [] => none
  | c :: cs =>
    if c = sep then some ([], cs)
    else
      match splitFirstAt sep cs with
      | none => none
      | some (a, b) => some (c :: a, b)

/-! ## URL parsing model

The source calls CPython's `urllib.parse.urlparse` / `parse_qs`.  The model
below reproduces their behaviour on the fragment of inputs the engine sees:
absolute `http(s)://` URLs (and, like `urlparse`, it yields an empty netloc
when no `scheme://` marker is present).  Percent-decoding and `+` decoding of
query strings are not modelled; the configured parameter names and the claims
never use them. -/

/-- Drop characters up to and including the first `://` marker. -/
def dropToSchemeMarker : List Char → Option (List Char)
  | [] => none
  | ':' :: '/' :: '/' :: rest => some rest
  | _ :: rest => dropToSchemeMarker rest

/-- `urlparse(url).netloc`: the host part between `://` and `/`, `?` or `#`. -/
def urlNetloc (u : List Char) : List Char :=
  match dropToSchemeMarker u with
  | none => []
  | some rest => rest.takeWhile fun c => !(c == '/' || c == '?' || c == '#')

/-- `urlparse(url).query`: the part after the first `?`, before any `#`. -/
def urlQuery (u : List Char) : List Char :=
  let noFrag := u.takeWhile fun c => !(c == '#')
  match splitFirstAt '?' noFrag with
  | none => []
  | some (_, q) => q

/-- The keys of `urllib.parse.parse_qs(query)` with its default
`keep_blank_values=False`: each `&`-separated field is split at its first
`=`; fields without `=` or with an empty value are dropped. -/
def queryKeys (q : List Char) : List (List Char) :=
  (q.splitOn '&').filterMap fun f =>
    match splitFirstAt '=' f with
    | none => none
    | some (k, v) => if v = [] then none else some k

/-! ## Configuration (src/config.py, `ExtractionConfig` defaults) -/

/-- `config.extraction.min_file_size = 512 * 1024`. -/
def min_file_size : Int := 512 * 1024

/-- `config.extraction.cdn_patterns`. -/
def cdn_patterns : List (List Char) :=
  ["cdnst".toList, "d.terabox".toList, "data.terabox".toList,
   "download.terabox".toList, "cdn.terabox".toList, "st.terabox".toList,
   "d2.terabox".toList, "d3.terabox".toList, "d4.terabox".toList,
   "d5.terabox".toList, "stream".toList, "datadown".toList, "nxcdn".toList,
   "dxcdn".toList, "hot.terabox".toList, "cold.terabox".toList,
   "jp-store".toList, "asia-store".toList, "us-store".toList,
   "eu-store".toList, "video-cdn".toList, "file-cdn".toList,
   "media-cdn".toList, "storage".toList, "dl.terabox".toList,
   "get.terabox".toList, "fetch.terabox".toList, "pan.terabox".toList,
   "pcs.terabox".toList, "c.terabox".toList, "f.terabox".toList]

/-- `config.extraction.signature_params`. -/
def signature_params : List (List Char) :=
  ["sign".toList, "time".toList, "timestamp".toList, "expires".toList,
   "expiry".toList, "exp".toList, "token".toList, "auth".toList,
   "signature".toList, "key".toList, "secret".toList, "sig".toList,
   "fid".toList, "uk".toList, "devuid".toList, "dp-logid".toList,
   "shareid".toList, "fsid".toList, "rand".toList, "vuk".toList,
   "app_id".toList, "check_blue_name".toList, "clienttype".toList,
   "channel".toList, "version".toList, "web".toList, "dp-callid".toList,
   "scene".toList]

/-- `config.extraction.supported_domains`. -/
def supported_domains : List (List Char) :=
  ["terabox.com".toList, "1024tera.com".toList, "teraboxapp.com".toList,
   "4funbox.co".toList, "mirrobox.com".toList, "nephobox.com".toList,
   "freeterabox.com".toList, "momerybox.com".toList, "teraboxlink.com".toList,
   "terafileshare.com".toList, "terabox.fun".toList, "terabox.app".toList,
   "1024terabox.com".toList, "teraboxshare.com".toList, "terabox.tech".toList,
   "gcloud.live".toList]

/-! ## Validators (src/extractor/validators.py) -/

/-- `URLValidator.is_valid_terabox_url`: supported-domain check with `www.`
stripping and exact-or-subdomain matching. -/
def is_valid_terabox_url (url : List Char) : Bool :=
  let domain0 := pyLower (urlNetloc url)
  let domain := if startsWithList "www.".toList domain0 then domain0.drop 4 else domain0
  supported_domains.any fun supported =>
    domain == supported || endsWithList ('.' :: supported) domain

/-- `URLValidator.normalize_url`: strip whitespace, then prepend `https://`
unless the URL already starts with `http://` or `https://`. -/
def normalize_url (url : List Char) : List Char :=
  let url := pyStrip url
  if startsWithList "http://".toList url || startsWithList "https://".toList url then url
  else "https://".toList ++ url

/-- `FileValidator.is_cdn_url`: some configured CDN pattern is a substring of
the lowered host. -/
def is_cdn_url (url : List Char) : Bool :=
  let host := pyLower (urlNetloc url)
  cdn_patterns.any fun pattern => hasSub pattern host

/-- `FileValidator.has_signature_params`: some configured signature parameter
name occurs among the parsed query keys. -/
def has_signature_params (url : List Char) : Bool :=
  let params := queryKeys (urlQuery url)
  signature_params.any fun p => params.any fun k => k == p

/-- `FileValidator.is_valid_download_url`: CDN match and signature presence. -/
def is_valid_download_url (url : List Char) : Bool :=
  is_cdn_url url && has_signature_params url

/-- `FileValidator.VIDEO_MIMES`. -/
def VIDEO_MIMES : List (List Char) :=
  ["video/mp4".toList, "video/webm".toList, "video/avi".toList,
   "video/mkv".toList, "video/x-matroska".toList, "video/quicktime".toList,
   "video/x-msvideo".toList, "video/x-flv".toList, "video/3gpp".toList,
   "video/mpeg".toList]

/-- `FileValidator.DOCUMENT_MIMES`. -/
def DOCUMENT_MIMES : List (List Char) :=
  ["application/pdf".toList, "application/zip".toList,
   "application/x-rar-compressed".toList, "application/x-7z-compressed".toList,
   "application/x-tar".toList, "application/gzip".toList,
   "application/octet-stream".toList]

/-- `FileValidator.AUDIO_MIMES`. -/
def AUDIO_MIMES : List (List Char) :=
  ["audio/mpeg".toList, "audio/mp3".toList, "audio/wav".toList,
   "audio/aac".toList, "audio/ogg".toList, "audio/flac".toList,
   "audio/x-m4a".toList]

/-- `FileValidator.get_file_type`: the display class of a content-type
header (lowered, truncated at `;`, stripped, then matched against the MIME
sets). -/
def get_file_type (content_type : Option (List Char)) : List Char :=
  match content_type with
  | none => "unknown".toList
  | some ct0 =>
    if ct0 = [] then "unknown".toList
    else
      let ct := pyStrip ((pyLower ct0).takeWhile fun c => !(c == ';'))
      if VIDEO_MIMES.any (fun m => m == ct) then "video".toList
      else if AUDIO_MIMES.any (fun m => m == ct) then "audio".toList
      else if DOCUMENT_MIMES.any (fun m => m == ct) then "document".toList
      else if startsWithList "image/".toList ct then "image".toList
      else "file".toList

/-- The reasons returned by `FileValidator.validate_extracted_url`, one
constructor per `return` branch (the source returns the corresponding
human-readable strings; `fileTooSmall` carries a formatted size there). -/
inductive VReason where
  | emptyUrl
  | invalidProtocol
  | notCdn
  | missingSignature
  | fileTooSmall
  | valid
deriving DecidableEq

/-- `FileValidator.validate_extracted_url`: full validation of an extracted
URL, returning the validity flag and the reason. -/
def validate_extracted_url (url : List Char) (content_length : Option Int) :
    Bool × VReason :=
  if url = [] then (false, .emptyUrl)
  else if !startsWithList "http".toList url then (false, .invalidProtocol)
  else if !is_cdn_url url then (false, .notCdn)
  else if !has_signature_params url then (false, .missingSignature)
  else
    match content_length with
    | some n => if n < min_file_size then (false, .fileTooSmall) else (true, .valid)
    | none => (true, .valid)

/-! ## Network layer (src/extractor/network_layer.py) -/

/-- `CapturedRequest`: one captured network response. -/
structure CapturedRequest where
  url : List Char
  content_type : Option (List Char) := none
  content_length : Option Int := none
  filename : Option (List Char) := none
  headers : List (List Char × List Char) := []
deriving DecidableEq

/-- The `media_types` markers of `NetworkLayer._is_media_response`. -/
def media_types : List (List Char) :=
  ["video/".toList, "audio/".toList, "application/octet-stream".toList,
   "application/x-download".toList, "application/force-download".toList,
   "application/zip".toList, "application/x-rar".toList,
   "application/pdf".toList]

/-- `any(mt in content_type.lower() for mt in media_types)`. -/
def is_media_type (content_type : List Char) : Bool :=
  media_types.any fun mt => hasSub mt (pyLower content_type)

/-- `content_length >= config.extraction.min_file_size`. -/
def is_large (content_length : Int) : Bool :=
  min_file_size ≤ content_length

/-- `NetworkLayer._is_media_response`: the dual classification rule for
download candidates. -/
def is_media_response (content_type : List Char) (content_length : Int)
    (url : List Char) : Bool :=
  (is_media_type content_type && is_large content_length) ||
    (is_cdn_url url && has_signature_params url && is_large content_length)

/-- The sort key of `get_best_url`: `x.content_length or 0`. -/
def sizeKey (c : CapturedRequest) : Int :=
  c.content_length.getD 0

/-- Insert into a list already sorted by descending `sizeKey`, after any
equal keys (matching the stability of Python `sorted`). -/
def insertDesc (x : CapturedRequest) : List CapturedRequest → List CapturedRequest
  | [] => [x]
  | y :: ys => if sizeKey y ≤ sizeKey x then x :: y :: ys else y :: insertDesc x ys

/-- `sorted(captured, key=lambda x: x.content_length or 0, reverse=True)`:
a stable sort by descending content length. -/
def sortDesc : List CapturedRequest → List CapturedRequest
  | [] => []
  | x :: xs => insertDesc x (sortDesc xs)

/-- The loop test of `get_best_url`:
`captured.content_type and 'video' in captured.content_type.lower()`. -/
def isVideoCt (c : CapturedRequest) : Bool :=
  match c.content_type with
  | none => false
  | some ct => !ct.isEmpty && hasSub "video".toList (pyLower ct)

/-- `NetworkLayer.get_best_url`: the first video-typed entry of the
size-descending sort, else the largest entry, else `none`. -/
def get_best_url (captured_urls : List CapturedRequest) : Option CapturedRequest :=
  match captured_urls with
  | [] => none
  | _ :: _ =>
    let sorted_urls := sortDesc captured_urls
    match sorted_urls.find? isVideoCt with
    | some c => some c
    | none => sorted_urls.head?

/-! ## Retry policy (src/utils/retry.py) -/

/-- `calculate_delay`: exponential backoff clamped to `max_delay`, multiplied
by a jitter factor when jitter is enabled.  The factor that the source draws
with `random.uniform(*jitter_range)` is passed explicitly; delays are modelled
in `ℚ` (the claims only exercise values on which binary floats are exact). -/
def calculate_delay (attempt : Nat) (base_delay max_delay exponential_base : ℚ)
    (jitter : Bool) (jitter_factor : ℚ) : ℚ :=
  let delay := base_delay * exponential_base ^ attempt
  let delay := min delay max_delay
  if jitter then delay * jitter_factor else delay

/-! ## Fingerprint generation (src/browser/fingerprint.py)

The source drives every draw through the global generator of Python's
`random` module.  That generator is modelled as an explicitly threaded
64-bit state with a linear-congruential step; the *sequence and count* of
draws mirrors the source line by line, while the Mersenne-Twister bit
stream itself (and hence the sampled distribution of the weighted draws)
is abstracted.  `random.shuffle` is modelled as a state-determined
rotation, i.e. some state-determined permutation. -/

/-- Explicit state of the `random` module's global generator: the stream of
raw draws it will produce, together with the current position. -/
structure Rng where
  stream : Nat → Nat
  pos : Nat

/-- One raw pseudo-random draw: the stream value at the current position. -/
def Rng.next (g : Rng) : Nat × Rng :=
  (g.stream g.pos, ⟨g.stream, g.pos + 1⟩)

/-- `random.choice(l)`: a state-determined element of `l` (the default is
returned only for an empty `l`, which never occurs in the source). -/
def rchoice {α : Type} (l : List α) (d : α) (g : Rng) : α × Rng :=
  (l.getD (g.next.1 % l.length) d, g.next.2)

/-- `random.choices(['windows','macos'], weights=[0.75, 0.25])[0]`:
`true` means Windows; the 3-in-4 weighting is preserved. -/
def rchoiceOsIsWindows (g : Rng) : Bool × Rng :=
  (decide (g.next.1 % 4 < 3), g.next.2)

/-- `random.randint(lo, hi)` (both bounds inclusive). -/
def rrandint (lo hi : Nat) (g : Rng) : Nat × Rng :=
  (lo + g.next.1 % (hi + 1 - lo), g.next.2)

/-- `random.random()`: a state-determined rational in `[0, 1)`. -/
def rrandom (g : Rng) : ℚ × Rng :=
  ((g.next.1 % 9007199254740992 : ℚ) / 9007199254740992, g.next.2)

/-- `random.shuffle(l)` modelled as a state-determined rotation of `l`. -/
def rshuffle {α : Type} (l : List α) (g : Rng) : List α × Rng :=
  (l.rotate (g.next.1 % (l.length + 1)), g.next.2)

/-- `round(random.uniform(0.3, 1.0), 2)`: a state-determined two-decimal
rational in `[0.30, 1.00]`. -/
def rlevel (g : Rng) : ℚ × Rng :=
  ((30 + g.next.1 % 71 : ℚ) / 100, g.next.2)

/-- Width/height pair (`viewport` and `screen` dictionaries). -/
structure Dim where
  width : Nat
  height : Nat
deriving DecidableEq

/-- The `touch_support` dictionary. -/
structure TouchSupport where
  maxTouchPoints : Nat
  ontouchstart : Bool
  ontouchend : Bool
deriving DecidableEq

/-- The `battery` dictionary (`none` time models `float('inf')`). -/
structure BatteryState where
  charging : Bool
  chargingTime : Option ℚ
  dischargingTime : Option ℚ
  level : ℚ
deriving DecidableEq

/-- The `connection` dictionary. -/
structure ConnectionInfo where
  effectiveType : List Char
  downlink : ℚ
  rtt : Nat
  saveData : Bool
deriving DecidableEq

/-- One row of `FingerprintGenerator.TIMEZONES`. -/
structure TimezoneRow where
  tz : List Char
  langs : List (List Char)
  locale : List Char
  weight : ℚ
deriving DecidableEq

/-- The `Fingerprint` dataclass. -/
structure Fingerprint where
  user_agent : List Char
  viewport : Dim
  screen : Dim
  timezone : List Char
  locale : List Char
  languages : List (List Char)
  platform : List Char
  device_memory : Nat
  hardware_concurrency : Nat
  webgl_vendor : List Char
  webgl_renderer : List Char
  color_depth : Nat
  pixel_ratio : ℚ
  do_not_track : Option (List Char)
  touch_support : TouchSupport
  client_hints : List (List Char × List Char)
  audio_context_seed : ℚ
  canvas_seed : Nat
  fonts : List (List Char)
  battery : BatteryState
  connection : ConnectionInfo
deriving DecidableEq

/-- `FingerprintGenerator.CHROME_VERSIONS`. -/
def CHROME_VERSIONS : List (List Char × List Char) :=
  [("124".toList, "124.0.6367.91".toList), ("125".toList, "125.0.6422.60".toList),
   ("126".toList, "126.0.6478.55".toList), ("127".toList, "127.0.6533.72".toList),
   ("128".toList, "128.0.6613.84".toList), ("129".toList, "129.0.6668.42".toList),
   ("130".toList, "130.0.6723.91".toList), ("131".toList, "131.0.6778.85".toList),
   ("132".toList, "132.0.6834.57".toList)]

/-- `FingerprintGenerator.WINDOWS_VERSIONS`. -/
def WINDOWS_VERSIONS : List (List Char × List Char × List Char) :=
  [("10.0".toList, "Windows NT 10.0; Win64; x64".toList, "10.0.0".toList),
   ("11.0".toList, "Windows NT 10.0; Win64; x64".toList, "15.0.0".toList)]

/-- `FingerprintGenerator.MACOS_VERSIONS`. -/
def MACOS_VERSIONS : List (List Char × List Char × List Char) :=
  [("10_15_7".toList, "Macintosh; Intel Mac OS X 10_15_7".toList, "10.15.7".toList),
   ("12_7_1".toList, "Macintosh; Intel Mac OS X 12_7_1".toList, "12.7.1".toList),
   ("13_6_3".toList, "Macintosh; Intel Mac OS X 13_6_3".toList, "13.6.3".toList),
   ("14_2_1".toList, "Macintosh; Intel Mac OS X 14_2_1".toList, "14.2.1".toList),
   ("14_5".toList, "Macintosh; Intel Mac OS X 14_5".toList, "14.5".toList)]

/-- `FingerprintGenerator.VIEWPORTS`. -/
def VIEWPORTS : List Dim :=
  [⟨1920, 1080⟩, ⟨1536, 864⟩, ⟨1440, 900⟩, ⟨1366, 768⟩, ⟨1280, 720⟩,
   ⟨2560, 1440⟩, ⟨1680, 1050⟩, ⟨1600, 900⟩, ⟨1920, 1200⟩, ⟨1280, 800⟩]

/-- `FingerprintGenerator.TIMEZONES`. -/
def TIMEZONES : List TimezoneRow :=
  [⟨"America/New_York".toList, ["en-US".toList, "en".toList], "en-US".toList, 12/100⟩,
   ⟨"America/Los_Angeles".toList, ["en-US".toList, "en".toList], "en-US".toList, 10/100⟩,
   ⟨"America/Chicago".toList, ["en-US".toList, "en".toList], "en-US".toList, 6/100⟩,
   ⟨"Europe/London".toList, ["en-GB".toList, "en".toList], "en-GB".toList, 8/100⟩,
   ⟨"Europe/Paris".toList, ["fr-FR".toList, "fr".toList, "en".toList], "fr-FR".toList, 4/100⟩,
   ⟨"Europe/Berlin".toList, ["de-DE".toList, "de".toList, "en".toList], "de-DE".toList, 5/100⟩,
   ⟨"Asia/Tokyo".toList, ["ja-JP".toList, "ja".toList, "en".toList], "ja-JP".toList, 4/100⟩,
   ⟨"Asia/Shanghai".toList, ["zh-CN".toList, "zh".toList, "en".toList], "zh-CN".toList, 6/100⟩,
   ⟨"Asia/Kolkata".toList, ["en-IN".toList, "hi-IN".toList, "en".toList], "en-IN".toList, 15/100⟩,
   ⟨"Asia/Singapore".toList, ["en-SG".toList, "zh-SG".toList, "en".toList], "en-SG".toList, 3/100⟩,
   ⟨"Australia/Sydney".toList, ["en-AU".toList, "en".toList], "en-AU".toList, 3/100⟩,
   ⟨"Europe/Moscow".toList, ["ru-RU".toList, "ru".toList, "en".toList], "ru-RU".toList, 3/100⟩,
   ⟨"America/Sao_Paulo".toList, ["pt-BR".toList, "pt".toList, "en".toList], "pt-BR".toList, 4/100⟩,
   ⟨"Asia/Seoul".toList, ["ko-KR".toList, "ko".toList, "en".toList], "ko-KR".toList, 3/100⟩,
   ⟨"Asia/Dubai".toList, ["ar-AE".toList, "en-AE".toList, "en".toList], "ar-AE".toList, 2/100⟩,
   ⟨"Asia/Jakarta".toList, ["id-ID".toList, "id".toList, "en".toList], "id-ID".toList, 5/100⟩,
   ⟨"Europe/Amsterdam".toList, ["nl-NL".toList, "nl".toList, "en".toList], "nl-NL".toList, 2/100⟩,
   ⟨"Asia/Manila".toList, ["en-PH".toList, "fil-PH".toList, "en".toList], "en-PH".toList, 5/100⟩]

/-- `FingerprintGenerator.WEBGL_CONFIGS_WINDOWS`. -/
def WEBGL_CONFIGS_WINDOWS : List (List Char × List Char) :=
  [("Google Inc. (NVIDIA)".toList, "ANGLE (NVIDIA, NVIDIA GeForce RTX 3060 Direct3D11 vs_5_0 ps_5_0, D3D11)".toList),
   ("Google Inc. (NVIDIA)".toList, "ANGLE (NVIDIA, NVIDIA GeForce RTX 3070 Direct3D11 vs_5_0 ps_5_0, D3D11)".toList),
   ("Google Inc. (NVIDIA)".toList, "ANGLE (NVIDIA, NVIDIA GeForce RTX 4060 Direct3D11 vs_5_0 ps_5_0, D3D11)".toList),
   ("Google Inc. (NVIDIA)".toList, "ANGLE (NVIDIA, NVIDIA GeForce RTX 4070 Direct3D11 vs_5_0 ps_5_0, D3D11)".toList),
   ("Google Inc. (NVIDIA)".toList, "ANGLE (NVIDIA, NVIDIA GeForce GTX 1660 Super Direct3D11 vs_5_0 ps_5_0, D3D11)".toList),
   ("Google Inc. (AMD)".toList, "ANGLE (AMD, AMD Radeon RX 6700 XT Direct3D11 vs_5_0 ps_5_0, D3D11)".toList),
   ("Google Inc. (AMD)".toList, "ANGLE (AMD, AMD Radeon RX 7600 Direct3D11 vs_5_0 ps_5_0, D3D11)".toList),
   ("Google Inc. (Intel)".toList, "ANGLE (Intel, Intel(R) UHD Graphics 770 Direct3D11 vs_5_0 ps_5_0, D3D11)".toList),
   ("Google Inc. (Intel)".toList, "ANGLE (Intel, Intel(R) Iris(R) Xe Graphics Direct3D11 vs_5_0 ps_5_0, D3D11)".toList)]

/-- `FingerprintGenerator.WEBGL_CONFIGS_MAC`. -/
def WEBGL_CONFIGS_MAC : List (List Char × List Char) :=
  [("Apple Inc.".toList, "Apple M1".toList),
   ("Apple Inc.".toList, "Apple M1 Pro".toList),
   ("Apple Inc.".toList, "Apple M2".toList),
   ("Apple Inc.".toList, "Apple M2 Pro".toList),
   ("Apple Inc.".toList, "Apple M3".toList),
   ("Apple Inc.".toList, "Apple M3 Pro".toList),
   ("Apple Inc.".toList, "AMD Radeon Pro 5500M OpenGL Engine".toList),
   ("Apple Inc.".toList, "Intel(R) Iris(TM) Plus Graphics OpenGL Engine".toList)]

/-- `FingerprintGenerator.COMMON_FONTS`. -/
def COMMON_FONTS : List (List Char) :=
  ["Arial".toList, "Arial Black".toList, "Calibri".toList, "Cambria".toList,
   "Comic Sans MS".toList, "Consolas".toList, "Courier New".toList,
   "Georgia".toList, "Helvetica".toList, "Impact".toList,
   "Lucida Console".toList, "Lucida Sans Unicode".toList,
   "Microsoft Sans Serif".toList, "Palatino Linotype".toList,
   "Segoe UI".toList, "Tahoma".toList, "Times New Roman".toList,
   "Trebuchet MS".toList, "Verdana".toList, "Webdings".toList,
   "Wingdings".toList]

/-- `FingerprintGenerator.MAC_FONTS`. -/
def MAC_FONTS : List (List Char) :=
  ["Helvetica Neue".toList, "Menlo".toList, "Monaco".toList,
   "San Francisco".toList, "SF Pro".toList, "Avenir".toList,
   "Avenir Next".toList, "Futura".toList, "Gill Sans".toList,
   "Optima".toList]

/-- `FingerprintGenerator._generate_client_hints` (one `random.shuffle` of the
brand list, then a fixed dictionary). -/
def generate_client_hints (chrome_major chrome_full : List Char)
    (_platform platform_version : List Char) (osIsWin : Bool) (g : Rng) :
    List (List Char × List Char) × Rng :=
  let q : List Char := ['"']
  let brands : List (List Char) :=
    [q ++ "Chromium".toList ++ q ++ ";v=".toList ++ q ++ chrome_major ++ q,
     q ++ "Google Chrome".toList ++ q ++ ";v=".toList ++ q ++ chrome_major ++ q,
     q ++ "Not=A?Brand".toList ++ q ++ ";v=".toList ++ q ++ "99".toList ++ q]
  let sh := rshuffle brands g
  let platform_name := if osIsWin then "Windows".toList else "macOS".toList
  ([("sec-ch-ua".toList, List.intercalate ", ".toList sh.1),
    ("sec-ch-ua-mobile".toList, "?0".toList),
    ("sec-ch-ua-platform".toList, q ++ platform_name ++ q),
    ("sec-ch-ua-platform-version".toList, q ++ platform_version ++ q),
    ("sec-ch-ua-arch".toList, q ++ "x86".toList ++ q),
    ("sec-ch-ua-bitness".toList, q ++ "64".toList ++ q),
    ("sec-ch-ua-model".toList, q ++ q),
    ("sec-ch-ua-full-version-list".toList,
      q ++ "Chromium".toList ++ q ++ ";v=".toList ++ q ++ chrome_full ++ q ++
      ", ".toList ++ q ++ "Google Chrome".toList ++ q ++ ";v=".toList ++ q ++
      chrome_full ++ q ++ ", ".toList ++ q ++ "Not=A?Brand".toList ++ q ++
      ";v=".toList ++ q ++ "99.0.0.0".toList ++ q)], sh.2)

/-- The body of `FingerprintGenerator.generate` after the operating-system
draw: every remaining draw of the source, in source order, threaded through
the explicit generator state; `osIsWin` records the OS branch taken. -/
def genAfterOs (osIsWin : Bool) (g1 : Rng) : Fingerprint × Rng :=
  let r2 := if osIsWin then rchoice WINDOWS_VERSIONS ("10.0".toList, "Windows NT 10.0; Win64; x64".toList, "10.0.0".toList) g1
            else rchoice MACOS_VERSIONS ("10_15_7".toList, "Macintosh; Intel Mac OS X 10_15_7".toList, "10.15.7".toList) g1
  let os_string := r2.1.2.1
  let platform_version := r2.1.2.2
  let platform := if osIsWin then "Win32".toList else "MacIntel".toList
  let r3 := if osIsWin then rchoice WEBGL_CONFIGS_WINDOWS ("Google Inc. (NVIDIA)".toList, [] ) r2.2
            else rchoice WEBGL_CONFIGS_MAC ("Apple Inc.".toList, []) r2.2
  let webgl_config := r3.1
  let fonts0 := if osIsWin then COMMON_FONTS else COMMON_FONTS ++ MAC_FONTS
  let r4 := rshuffle fonts0 r3.2
  let r5 := rrandint 15 r4.1.length r4.2
  let fonts := r4.1.take r5.1
  let r6 := rchoice CHROME_VERSIONS ("124".toList, "124.0.6367.91".toList) r5.2
  let chrome_major := r6.1.1
  let chrome_full := r6.1.2
  let user_agent :=
    "Mozilla/5.0 (".toList ++ os_string ++
    ") AppleWebKit/537.36 (KHTML, like Gecko) Chrome/".toList ++ chrome_full ++
    " Safari/537.36".toList
  let r7 := rchoice VIEWPORTS ⟨1920, 1080⟩ r6.2
  let viewport := r7.1
  let r8 := rchoice [0, 40, 48, 56] 0 r7.2
  let screen : Dim := ⟨viewport.width, viewport.height + r8.1⟩
  let r9 := rchoice TIMEZONES ⟨"America/New_York".toList, ["en-US".toList, "en".toList], "en-US".toList, 12/100⟩ r8.2
  let timezone_data := r9.1
  let r10 := rchoice [4, 8, 8, 16, 16, 32] 8 r9.2
  let r11 := rchoice [4, 6, 8, 8, 12, 16] 8 r10.2
  let r12 := rchoice [(1 : ℚ), 1, 5/4, 5/4, 3/2, 2] 1 r11.2
  let touch : TouchSupport := ⟨0, false, false⟩
  let r13 := generate_client_hints chrome_major chrome_full platform platform_version osIsWin r12.2
  let r14 := rrandom r13.2
  let r15 := rrandint 0 2147483647 r14.2
  let r16 := rchoice [true, true, true, false] true r15.2
  let r17 := rchoice [some (0 : ℚ), none] (some 0) r16.2
  let r18 := rchoice [true, false] true r17.2
  let r19 := if !r18.1 then
               (let v := rrandint 3600 28800 r18.2
                ((some (v.1 : ℚ) : Option ℚ), v.2))
             else ((none : Option ℚ), r18.2)
  let r20 := rlevel r19.2
  let battery : BatteryState := ⟨r16.1, r17.1, r19.1, r20.1⟩
  let r21 := rchoice ["4g".toList, "4g".toList, "4g".toList, "3g".toList] "4g".toList r20.2
  let r22 := rchoice [(10 : ℚ), 10, 113/20, 14/5, 7/5] 10 r21.2
  let r23 := rchoice [50, 100, 150, 200] 50 r22.2
  let connection : ConnectionInfo := ⟨r21.1, r22.1, r23.1, false⟩
  let r24 := rchoice [none, some "1".toList, none, none] none r23.2
  (⟨user_agent, viewport, screen, timezone_data.tz, timezone_data.locale,
    timezone_data.langs, platform, r10.1, r11.1, webgl_config.1,
    webgl_config.2, 24, r12.1, r24.1, touch, r13.1, r14.1, r15.1, fonts,
    battery, connection⟩, r24.2)

/-- The body of `FingerprintGenerator.generate` after seeding: the weighted
operating-system draw followed by the rest of the draw sequence. -/
def genFromSeeded (g0 : Rng) : Fingerprint × Rng :=
  let r1 := rchoiceOsIsWindows g0
  genAfterOs r1.1 r1.2

/-- The deterministic hash of a seed string used by `seedRng`. -/
def seedHash (s : List Char) : Nat :=
  s.foldl (fun h c => (h * 31 + c.toNat + 1) % 18446744073709551616) 5381

/-- `random.seed(hashlib.sha256(seed.encode()).hexdigest())`: a deterministic
generator state derived from the seed string alone (the concrete hash and
bit stream are abstracted by a 64-bit mix of the seed hash and the draw
position; determinism and seed-dependence are preserved). -/
def seedRng (s : List Char) : Rng :=
  ⟨fun i => ((seedHash s + i) * 6364136223846793005 + 1442695040888963407) %
    18446744073709551616, 0⟩

/-- A fixed generator state standing in for fresh process entropy. -/
def zeroRng : Rng :=
  ⟨fun _ => 0, 0⟩

/-- A second fixed generator state, distinct from `zeroRng`. -/
def oneRng : Rng :=
  ⟨fun _ => 1, 0⟩

namespace FingerprintGenerator

/-- `FingerprintGenerator.generate`: the source tests `if seed:` — Python
truthiness — so only a truthy (non-`None`, non-empty) seed re-seeds the
global generator from a hash of the seed string, discarding the prior state
`g`; a missing seed, and likewise the falsy empty seed string, seed from
fresh entropy, modelled by the incoming state `g`. -/
def generate (seed : Option (List Char)) (g : Rng) : Fingerprint × Rng :=
  match seed with
  | some s => if s = [] then genFromSeeded g else genFromSeeded (seedRng s)
  | none => genFromSeeded g

end FingerprintGenerator

/-- The fingerprint produced by one call of `generate`. -/
def fpOf (seed : Option (List Char)) (g : Rng) : Fingerprint :=
  (FingerprintGenerator.generate seed g).1

/-! ## Extraction results and the pipeline (src/browser/context.py,
src/extractor/pipeline.py) -/

/-- The `ExtractionResult` dataclass. -/
structure ExtractionResult where
  success : Bool
  download_url : Option (List Char) := none
  filename : Option (List Char) := none
  filesize : Option Int := none
  filetype : Option (List Char) := none
  error : Option (List Char) := none
  layer_used : Option (List Char) := none
deriving DecidableEq

/-- The dictionary a successful extraction layer hands to `_build_result`
(`url`, optional `filename`/`filesize`/`filetype` keys). -/
structure LayerData where
  url : List Char
  filename : Option (List Char) := none
  filesize : Option Int := none
  filetype : Option (List Char) := none
deriving DecidableEq

/-- `ExtractionPipeline._build_result`: the URL is validated and a failure is
only logged; the returned result is always successful and carries the URL
unchanged. -/
def build_result (data : LayerData) (layer : List Char) : ExtractionResult :=
  let _validation := validate_extracted_url data.url data.filesize
  { success := true
    download_url := some data.url
    filename := data.filename
    filesize := data.filesize
    filetype := some (data.filetype.getD "file".toList)
    layer_used := some layer }

/-- The three extraction stages of the waterfall. -/
inductive Stage where
  | network
  | javascript
  | dom
deriving DecidableEq

/-- `ExtractionPipeline.extract`, with each stage's outcome supplied as a
stub (`none` models the stage producing no result, whether by returning
`None` or by an exception caught inside `_try_*_layer`) and the list of
stages actually invoked recorded alongside the result.  `late` is the final
re-query of the network listener after all stages. -/
def pipeline_extract (url : List Char) (netRes jsRes domRes : Option LayerData)
    (late : Option CapturedRequest) : ExtractionResult × List Stage :=
  if !is_valid_terabox_url url then
    ({ success := false,
       error := some "Invalid Terabox URL. Please provide a valid share link.".toList }, [])
  else
    match netRes with
    | some d => (build_result d "network".toList, [.network])
    | none =>
      match jsRes with
      | some d => (build_result d "javascript".toList, [.network, .javascript])
      | none =>
        match domRes with
        | some d => (build_result d "dom".toList, [.network, .javascript, .dom])
        | none =>
          match late with
          | some best =>
            ({ success := true
               download_url := some best.url
               filename := best.filename
               filesize := best.content_length
               filetype := some (get_file_type best.content_type)
               layer_used := some "network_late".toList },
             [.network, .javascript, .dom])
          | none =>
            ({ success := false,
               error := some "Could not extract download link. The page structure may have changed.".toList },
             [.network, .javascript, .dom])

/-! ## Retry loop of the session manager
(`BrowserContextManager.extract_with_stealth`) -/

/-- The outcome of `extract_with_stealth` together with the number of
attempts made and of inter-attempt delays slept. -/
structure RunOut where
  result : ExtractionResult
  attempts : Nat
  delays : Nat
deriving DecidableEq

/-- The failure message
`f"All {max_retries} attempts failed. Last error: {last_error}"`. -/
def failMsg (max_retries : Nat) (last_error : Option (List Char)) : List Char :=
  "All ".toList ++ (toString max_retries).toList ++
  " attempts failed. Last error: ".toList ++
  (match last_error with
   | none => "None".toList
   | some e => e)

/-- The `for attempt in range(max_retries)` loop of `extract_with_stealth`:
`f attempt` is the result of the attempt's extraction callback, a success
returns immediately, a failure records `result.error` as the last error and
sleeps one increasing delay unless the budget is exhausted. -/
def ewsLoop (max_retries : Nat) (f : Nat → ExtractionResult) (attempt : Nat)
    (last_error : Option (List Char)) (atts dels : Nat) : RunOut :=
  if attempt < max_retries then
    let r := f attempt
    if r.success then ⟨r, atts + 1, dels⟩
    else
      let dels' := if attempt < max_retries - 1 then dels + 1 else dels
      ewsLoop max_retries f (attempt + 1) r.error (atts + 1) dels'
  else
    ⟨{ success := false, error := some (failMsg max_retries last_error) }, atts, dels⟩
termination_by max_retries - attempt
decreasing_by omega

/-- `BrowserContextManager.extract_with_stealth` with the per-attempt
extraction stubbed by `f`. -/
def extract_with_stealth (max_retries : Nat) (f : Nat → ExtractionResult) : RunOut :=
  ewsLoop max_retries f 0 none 0 0

/-! ## Concrete instances used by the specification's examples -/

/-- The 5MB video candidate of the `getBest()` example. -/
def exCandidateV5 : CapturedRequest :=
  { url := "https://d.terabox.example/a?sign=a".toList,
    content_type := some "video/mp4".toList, content_length := some 5242880 }

/-- The 50MB non-video candidate of the `getBest()` example. -/
def exCandidateF50 : CapturedRequest :=
  { url := "https://d.terabox.example/b?sign=b".toList,
    content_type := some "application/octet-stream".toList,
    content_length := some 52428800 }

/-- The 20MB video candidate of the `getBest()` example. -/
def exCandidateV20 : CapturedRequest :=
  { url := "https://d.terabox.example/c?sign=c".toList,
    content_type := some "video/mp4".toList, content_length := some 20971520 }

/-- The capture list `[{video,5MB}, {file,50MB}, {video,20MB}]`. -/
def exampleCaptured : List CapturedRequest :=
  [exCandidateV5, exCandidateF50, exCandidateV20]

/-- An attempt stub on which every extraction attempt fails. -/
def failStub : Nat → ExtractionResult :=
  fun i => { success := false, error := some ("stage failure ".toList ++ (toString i).toList) }

/-! # Theorems -/

/-! ## Lemmas on whitespace stripping and prefixes -/

theorem dropSpace_cons_not_space {c : Char} (h : pyIsSpace c = false)
    (l : List Char) : dropSpace (c :: l) = c :: l := by
  simp [dropSpace, h]

theorem dropSpace_dropSpace (l : List Char) : dropSpace (dropSpace l) = dropSpace l := by
  induction l with
  | nil => rfl
  | cons c cs ih =>
    by_cases h : pyIsSpace c
    · simp [dropSpace, h, ih]
    · simp only [Bool.not_eq_true] at h
      simp [dropSpace, h]

theorem dropSpace_head_not_space : ∀ (l : List Char) {c : Char} {cs : List Char},
    dropSpace l = c :: cs → pyIsSpace c = false := by
  intro l
  induction l with
  | nil => intro c cs h; simp [dropSpace] at h
  | cons a as ih =>
    intro c cs h
    by_cases ha : pyIsSpace a
    · rw [show dropSpace (a :: as) = dropSpace as by simp [dropSpace, ha]] at h
      exact ih h
    · simp only [Bool.not_eq_true] at ha
      rw [dropSpace_cons_not_space ha] at h
      cases h
      exact ha

theorem dropSpace_append_cons {c : Char} (h : pyIsSpace c = false)
    (A X : List Char) : dropSpace (A ++ c :: X) = dropSpace A ++ c :: X := by
  induction A with
  | nil => simp [dropSpace, h]
  | cons a A ih =>
    by_cases ha : pyIsSpace a
    · simp [dropSpace, ha, ih]
    · simp only [Bool.not_eq_true] at ha
      simp [dropSpace, ha]

theorem dropSpace_pyStrip (s : List Char) : dropSpace (pyStrip s) = pyStrip s := by
  unfold pyStrip
  rcases h : dropSpace s with _ | ⟨a, as⟩
  · simp [dropSpace]
  · have ha : pyIsSpace a = false := dropSpace_head_not_space s h
    rw [List.reverse_cons, show as.reverse ++ [a] = as.reverse ++ a :: [] from rfl,
      dropSpace_append_cons ha, List.reverse_append]
    exact dropSpace_cons_not_space ha _

theorem dropSpace_pyStrip_reverse (s : List Char) :
    dropSpace (pyStrip s).reverse = (pyStrip s).reverse := by
  unfold pyStrip
  rw [List.reverse_reverse]
  exact dropSpace_dropSpace _

theorem pyStrip_idem (s : List Char) : pyStrip (pyStrip s) = pyStrip s := by
  conv_lhs => rw [pyStrip]
  rw [dropSpace_pyStrip, dropSpace_pyStrip_reverse, List.reverse_reverse]

theorem startsWithList_iff_append : ∀ (p s : List Char),
    startsWithList p s = true ↔ ∃ r, s = p ++ r := by
  intro p
  induction p with
  | nil => intro s; simp [startsWithList]
  | cons a as ih =>
    intro s
    cases s with
    | nil => simp [startsWithList]
    | cons b bs =>
      simp only [startsWithList, Bool.and_eq_true, beq_iff_eq, ih bs, List.cons_append,
        List.cons.injEq]
      constructor
      · rintro ⟨rfl, r, rfl⟩; exact ⟨r, rfl, rfl⟩
      · rintro ⟨r, rfl, rfl⟩; exact ⟨rfl, r, rfl⟩

theorem startsWithList_append (p r : List Char) : startsWithList p (p ++ r) = true :=
  (startsWithList_iff_append p (p ++ r)).mpr ⟨r, rfl⟩

theorem pyStrip_append_of_not_space {p : List Char} (hne : p ≠ [])
    (hns : ∀ c ∈ p, pyIsSpace c = false) (r : List Char) :
    pyStrip (p ++ r) = p ++ (dropSpace r.reverse).reverse := by
  rcases p with _ | ⟨a, p'⟩
  · exact absurd rfl hne
  have ha : pyIsSpace a = false := hns a (by simp)
  rcases hr : (a :: p').reverse with _ | ⟨d, q⟩
  · simp at hr
  have hd : pyIsSpace d = false := by
    apply hns
    have hm : d ∈ (a :: p').reverse := by rw [hr]; simp
    exact List.mem_reverse.mp hm
  unfold pyStrip
  rw [List.cons_append, dropSpace_cons_not_space ha, ← List.cons_append,
    List.reverse_append, hr, dropSpace_append_cons hd, List.reverse_append,
    ← hr, List.reverse_reverse]

theorem normalize_url_eq (s : List Char) :
    normalize_url s =
      if startsWithList "http://".toList (pyStrip s) ||
          startsWithList "https://".toList (pyStrip s)
      then pyStrip s
      else "https://".toList ++ pyStrip s := rfl

/-- C10: `normalize_url` is idempotent; its output always starts with
`http://` or `https://`; and an input that already starts with a scheme is
returned unchanged except for stripping surrounding whitespace. -/
theorem c10_normalize_url_idempotent (s : List Char) :
    normalize_url (normalize_url s) = normalize_url s ∧
    (startsWithList "http://".toList (normalize_url s) = true ∨
      startsWithList "https://".toList (normalize_url s) = true) ∧
    ((startsWithList "http://".toList s = true ∨
        startsWithList "https://".toList s = true) →
      normalize_url s = pyStrip s) := by
  have hns7 : ∀ c ∈ "http://".toList, pyIsSpace c = false := by decide
  have hns8 : ∀ c ∈ "https://".toList, pyIsSpace c = false := by decide
  refine ⟨?_, ?_, ?_⟩
  · by_cases hc : (startsWithList "http://".toList (pyStrip s) ||
        startsWithList "https://".toList (pyStrip s)) = true
    · rw [normalize_url_eq s, if_pos hc, normalize_url_eq (pyStrip s), pyStrip_idem,
        if_pos hc]
    · rw [normalize_url_eq s, if_neg hc, normalize_url_eq]
      have hstr : pyStrip ("https://".toList ++ pyStrip s) =
          "https://".toList ++ (dropSpace (pyStrip s).reverse).reverse :=
        pyStrip_append_of_not_space (by decide) hns8 _
      rw [hstr, dropSpace_pyStrip_reverse, List.reverse_reverse]
      have hcond : (startsWithList "http://".toList ("https://".toList ++ pyStrip s) ||
          startsWithList "https://".toList ("https://".toList ++ pyStrip s)) = true := by
        rw [startsWithList_append]
        simp
      rw [if_pos hcond]
  · by_cases hc : (startsWithList "http://".toList (pyStrip s) ||
        startsWithList "https://".toList (pyStrip s)) = true
    · rw [normalize_url_eq s, if_pos hc]
      simpa using hc
    · rw [normalize_url_eq s, if_neg hc]
      right
      exact startsWithList_append _ _
  · rintro (h | h)
    · obtain ⟨r, rfl⟩ := (startsWithList_iff_append _ s).mp h
      have hstr := pyStrip_append_of_not_space (p := "http://".toList) (by decide) hns7 r
      have hcond : (startsWithList "http://".toList (pyStrip ("http://".toList ++ r)) ||
          startsWithList "https://".toList (pyStrip ("http://".toList ++ r))) = true := by
        rw [hstr, startsWithList_append]
        simp
      rw [normalize_url_eq, if_pos hcond]
    · obtain ⟨r, rfl⟩ := (startsWithList_iff_append _ s).mp h
      have hstr := pyStrip_append_of_not_space (p := "https://".toList) (by decide) hns8 r
      have hcond : (startsWithList "http://".toList (pyStrip ("https://".toList ++ r)) ||
          startsWithList "https://".toList (pyStrip ("https://".toList ++ r))) = true := by
        rw [hstr, startsWithList_append]
        simp
      rw [normalize_url_eq, if_pos hcond]

theorem c10_witness :
    normalize_url "https://terabox.com/s/x ".toList =
      pyStrip "https://terabox.com/s/x ".toList :=
  (c10_normalize_url_idempotent _).2.2 (Or.inr (by decide))

/-! ## Lemmas on the capture sort and `get_best_url` -/

theorem insertDesc_perm (x : CapturedRequest) (l : List CapturedRequest) :
    (insertDesc x l).Perm (x :: l) := by
  induction l with
  | nil => exact List.Perm.refl _
  | cons y ys ih =>
    by_cases h : sizeKey y ≤ sizeKey x
    · simp [insertDesc, h]
    · simp only [insertDesc, h, if_false]
      exact (ih.cons y).trans (List.Perm.swap x y ys)

theorem sortDesc_perm (l : List CapturedRequest) : (sortDesc l).Perm l := by
  induction l with
  | nil => exact List.Perm.refl _
  | cons x xs ih => exact (insertDesc_perm x (sortDesc xs)).trans (ih.cons x)

theorem insertDesc_sorted (x : CapturedRequest) (l : List CapturedRequest)
    (h : l.Pairwise fun a b => sizeKey b ≤ sizeKey a) :
    (insertDesc x l).Pairwise fun a b => sizeKey b ≤ sizeKey a := by
  induction l with
  | nil => simp [insertDesc]
  | cons y ys ih =>
    rcases List.pairwise_cons.mp h with ⟨hy, hys⟩
    by_cases hxy : sizeKey y ≤ sizeKey x
    · simp only [insertDesc, hxy, if_true]
      refine List.pairwise_cons.mpr ⟨?_, h⟩
      intro a ha
      rcases List.mem_cons.mp ha with rfl | ha
      · exact hxy
      · exact le_trans (hy a ha) hxy
    · simp only [insertDesc, hxy, if_false]
      refine List.pairwise_cons.mpr ⟨?_, ih hys⟩
      intro a ha
      rcases List.mem_cons.mp (((insertDesc_perm x ys).mem_iff).mp ha) with rfl | ha
      · exact le_of_lt (lt_of_not_le hxy)
      · exact hy a ha

theorem sortDesc_sorted (l : List CapturedRequest) :
    (sortDesc l).Pairwise fun a b => sizeKey b ≤ sizeKey a := by
  induction l with
  | nil => simp [sortDesc]
  | cons x xs ih => exact insertDesc_sorted x (sortDesc xs) ih

theorem sorted_find?_max (l : List CapturedRequest) (c : CapturedRequest)
    (hs : l.Pairwise fun a b => sizeKey b ≤ sizeKey a)
    (hf : l.find? isVideoCt = some c) :
    ∀ v ∈ l, isVideoCt v = true → sizeKey v ≤ sizeKey c := by
  induction l with
  | nil => simp at hf
  | cons a as ih =>
    rcases List.pairwise_cons.mp hs with ⟨ha, has⟩
    intro v hv hvid
    rcases hva : isVideoCt a with _ | _
    · rw [List.find?_cons, hva] at hf
      rcases List.mem_cons.mp hv with rfl | hv
      · rw [hva] at hvid
        exact absurd hvid (by simp)
      · exact ih has hf v hv hvid
    · rw [List.find?_cons, hva] at hf
      cases hf
      rcases List.mem_cons.mp hv with rfl | hv
      · exact le_refl _
      · exact ha v hv

theorem sorted_head_max (h : CapturedRequest) (t : List CapturedRequest)
    (hs : (h :: t).Pairwise fun a b => sizeKey b ≤ sizeKey a) :
    ∀ v ∈ h :: t, sizeKey v ≤ sizeKey h := by
  intro v hv
  rcases List.mem_cons.mp hv with rfl | hv
  · exact le_refl _
  · exact (List.pairwise_cons.mp hs).1 v hv

theorem insertDesc_ne_nil (x : CapturedRequest) (l : List CapturedRequest) :
    insertDesc x l ≠ [] := by
  cases l with
  | nil => simp [insertDesc]
  | cons y ys =>
    by_cases h : sizeKey y ≤ sizeKey x <;> simp [insertDesc, h]

/-- C2: `get_best_url` returns `none` exactly on the empty list; its result
is a member of the list, dominates every video-typed member in size and is
itself video-typed once any video-typed member exists, and dominates every
member when no video-typed member exists. -/
theorem c2_get_best_url (l : List CapturedRequest) :
    (get_best_url l = none ↔ l = []) ∧
    (∀ c, get_best_url l = some c →
      c ∈ l ∧
      (∀ v ∈ l, isVideoCt v = true → isVideoCt c = true ∧ sizeKey v ≤ sizeKey c) ∧
      ((∀ v ∈ l, isVideoCt v = false) → ∀ v ∈ l, sizeKey v ≤ sizeKey c)) := by
  constructor
  · cases l with
    | nil => simp [get_best_url]
    | cons x xs =>
      simp only [get_best_url]
      rcases hf : (sortDesc (x :: xs)).find? isVideoCt with _ | c
      · simp only [hf]
        rcases hh : sortDesc (x :: xs) with _ | ⟨h, t⟩
        · exact absurd hh (by simp [sortDesc]; exact insertDesc_ne_nil x (sortDesc xs))
        · simp
      · simp [hf]
  · intro c hc
    cases l with
    | nil => simp [get_best_url] at hc
    | cons x xs =>
      simp only [get_best_url] at hc
      have hperm := sortDesc_perm (x :: xs)
      have hsort := sortDesc_sorted (x :: xs)
      rcases hf : (sortDesc (x :: xs)).find? isVideoCt with _ | c'
      · rw [hf] at hc
        rcases hh : sortDesc (x :: xs) with _ | ⟨h, t⟩
        · exact absurd hh (by simp [sortDesc]; exact insertDesc_ne_nil x (sortDesc xs))
        · rw [hh] at hc
          simp only [List.head?] at hc
          cases hc
          have hnot := List.find?_eq_none.mp hf
          refine ⟨hperm.mem_iff.mp (by rw [hh]; simp), ?_, ?_⟩
          · intro v hv hvid
            exact absurd hvid (by simpa using hnot v (hperm.mem_iff.mpr hv))
          · intro _ v hv
            rw [hh] at hsort
            exact sorted_head_max c t hsort v (by rw [← hh]; exact hperm.mem_iff.mpr hv)
      · rw [hf] at hc
        cases hc
        have hmem := List.mem_of_find?_eq_some hf
        have hvid := List.find?_some hf
        refine ⟨hperm.mem_iff.mp hmem, ?_, ?_⟩
        · intro v hv _
          exact ⟨hvid, sorted_find?_max _ _ hsort hf v (hperm.mem_iff.mpr hv) (by assumption)⟩
        · intro hnone _ hv
          exact absurd hvid (by simp [hnone _ (hperm.mem_iff.mp hmem)])

theorem c2_witness :
    get_best_url exampleCaptured = some exCandidateV20 ∧
    exCandidateV20 ∈ exampleCaptured ∧
    isVideoCt exCandidateV20 = true ∧
    sizeKey exCandidateV5 ≤ sizeKey exCandidateV20 := by
  have h := (c2_get_best_url exampleCaptured).2 exCandidateV20 (by decide)
  have h5 := h.2.1 exCandidateV5 (by decide) (by decide)
  exact ⟨by decide, h.1, h5.1, h5.2⟩

/-- C1: a response is classified as a download candidate exactly when its
content-type carries a binary/media marker and its size reaches the minimum,
or its URL is a CDN match with a signature parameter and its size reaches
the minimum; a 10MB `video/mp4` response is a candidate, a 1KB `text/html`
response is not, and a 5MB signed response from a non-CDN host is not. -/
theorem c1_is_media_response :
    (∀ (content_type : List Char) (content_length : Int) (url : List Char),
      is_media_response content_type content_length url = true ↔
        ((is_media_type content_type = true ∧ min_file_size ≤ content_length) ∨
          (is_cdn_url url = true ∧ has_signature_params url = true ∧
            min_file_size ≤ content_length))) ∧
    (∀ url, is_media_response "video/mp4".toList 10485760 url = true) ∧
    (∀ url, is_media_response "text/html".toList 1024 url = false) ∧
    is_media_response "text/html".toList 5242880
      "https://example.com/f?sign=abc".toList = false := by
  refine ⟨?_, ?_, ?_, by decide⟩
  · intro content_type content_length url
    simp [is_media_response, is_large, Bool.or_eq_true, Bool.and_eq_true,
      decide_eq_true_eq, and_assoc]
  · intro url
    have h1 : is_media_type "video/mp4".toList = true := by decide
    have h2 : is_large 10485760 = true := by decide
    simp only [is_media_response, h1, h2, Bool.and_self, Bool.true_or]
  · intro url
    have h1 : is_media_type "text/html".toList = false := by decide
    have h2 : is_large 1024 = false := by decide
    simp only [is_media_response, h1, h2, Bool.false_and, Bool.and_false,
      Bool.or_self]

/-- C3: `is_valid_download_url` holds exactly for a CDN match carrying a
signature parameter; `validate_extracted_url` additionally fails with the
size reason on a known undersized length, fails with the missing-signature
reason on a CDN match without signature keys, and accepts a signed CDN URL
whose known length is not undersized. -/
theorem c3_url_validation :
    (∀ url, is_valid_download_url url = true ↔
      (is_cdn_url url = true ∧ has_signature_params url = true)) ∧
    (∀ (url : List Char) (n : Int), url ≠ [] →
      startsWithList "http".toList url = true → is_cdn_url url = true →
      has_signature_params url = true → n < min_file_size →
      validate_extracted_url url (some n) = (false, .fileTooSmall)) ∧
    (∀ (url : List Char) (cl : Option Int), url ≠ [] →
      startsWithList "http".toList url = true → is_cdn_url url = true →
      has_signature_params url = false →
      validate_extracted_url url cl = (false, .missingSignature)) ∧
    (∀ (url : List Char), url ≠ [] →
      startsWithList "http".toList url = true → is_cdn_url url = true →
      has_signature_params url = true →
      validate_extracted_url url none = (true, .valid)) ∧
    (∀ (url : List Char) (n : Int), url ≠ [] →
      startsWithList "http".toList url = true → is_cdn_url url = true →
      has_signature_params url = true → min_file_size ≤ n →
      validate_extracted_url url (some n) = (true, .valid)) := by
  refine ⟨?_, ?_, ?_, ?_, ?_⟩
  · intro url
    simp [is_valid_download_url, Bool.and_eq_true]
  · intro url n h1 h2 h3 h4 h5
    unfold validate_extracted_url
    rw [if_neg h1, h2, h3, h4]
    simp only [Bool.not_true, Bool.false_eq_true, if_false]
    rw [if_pos h5]
  · intro url cl h1 h2 h3 h4
    unfold validate_extracted_url
    rw [if_neg h1, h2, h3, h4]
    simp
  · intro url h1 h2 h3 h4
    unfold validate_extracted_url
    rw [if_neg h1, h2, h3, h4]
    simp
  · intro url n h1 h2 h3 h4 h5
    unfold validate_extracted_url
    rw [if_neg h1, h2, h3, h4]
    simp only [Bool.not_true, Bool.false_eq_true, if_false]
    rw [if_neg (not_lt.mpr h5)]

theorem c3_witness :
    validate_extracted_url "https://cdn.terabox.example/f?sign=abc&size=big".toList
        none = (true, .valid) ∧
    validate_extracted_url "https://cdn.terabox.example/f?size=big".toList
        none = (false, .missingSignature) ∧
    validate_extracted_url "https://cdn.terabox.example/f?sign=abc&size=big".toList
        (some 1000) = (false, .fileTooSmall) := by
  refine ⟨?_, ?_, ?_⟩
  · exact c3_url_validation.2.2.2.1 _ (by decide) (by decide) (by decide) (by decide)
  · exact c3_url_validation.2.2.1 _ none (by decide) (by decide) (by decide) (by decide)
  · exact c3_url_validation.2.1 _ 1000 (by decide) (by decide) (by decide) (by decide)
      (by decide)

/-- C4 counterexample: with base 1.0, exponential base 2.0, max delay 10 and
no jitter, the delay at attempt 3 is 8, not 10 — so the delay at attempt 3
is not 10 "regardless of base" as claimed. -/
theorem c4_counterexample : ¬ calculate_delay 3 1 10 2 false 1 = 10 := by
  have h : calculate_delay 3 1 10 2 false 1 = 8 := by
    simp [calculate_delay]
    norm_num
  rw [h]
  norm_num

/-- C4 (amended): the delay is `min(base * expBase ^ attempt, maxDelay)`,
times the jitter factor when jitter is enabled; `delay(0) = 1` for base 1,
expBase 2 and no jitter whenever the maximum is at least 1; and `delay(3)`
with maxDelay 10 and expBase 2 is clamped to 10 whenever
`base * 2 ^ 3 ≥ 10` (for smaller base it equals `base * 8`). -/
theorem c4_calculate_delay :
    (∀ (attempt : Nat) (base maxd eb jf : ℚ),
      calculate_delay attempt base maxd eb false jf = min (base * eb ^ attempt) maxd ∧
      calculate_delay attempt base maxd eb true jf =
        min (base * eb ^ attempt) maxd * jf) ∧
    (∀ (maxd jf : ℚ), (1 : ℚ) ≤ maxd → calculate_delay 0 1 maxd 2 false jf = 1) ∧
    (∀ (base jf : ℚ), (10 : ℚ) ≤ base * 2 ^ 3 →
      calculate_delay 3 base 10 2 false jf = 10) := by
  refine ⟨fun attempt base maxd eb jf => ⟨rfl, rfl⟩, ?_, ?_⟩
  · intro maxd jf h
    simp [calculate_delay]
    exact h
  · intro base jf h
    simp [calculate_delay]
    norm_num at h
    linarith

theorem c4_witness :
    calculate_delay 0 1 30 2 false 1 = 1 ∧ calculate_delay 3 2 10 2 false 1 = 10 :=
  ⟨c4_calculate_delay.2.1 30 1 (by norm_num), c4_calculate_delay.2.2 2 1 (by norm_num)⟩

/-- C5: within one attempt the pipeline invokes the stages in the fixed
order network, script-state (javascript), DOM, each at most once — the
invocation trace is always a prefix of that order — and whenever the
network stage yields a candidate the later stages are never invoked. -/
theorem c5_pipeline_short_circuit (url : List Char)
    (netRes jsRes domRes : Option LayerData) (late : Option CapturedRequest) :
    ((pipeline_extract url netRes jsRes domRes late).2 = [] ∨
     (pipeline_extract url netRes jsRes domRes late).2 = [Stage.network] ∨
     (pipeline_extract url netRes jsRes domRes late).2 =
       [Stage.network, Stage.javascript] ∨
     (pipeline_extract url netRes jsRes domRes late).2 =
       [Stage.network, Stage.javascript, Stage.dom]) ∧
    (∀ s : Stage, (pipeline_extract url netRes jsRes domRes late).2.count s ≤ 1) ∧
    (∀ d, netRes = some d →
      Stage.javascript ∉ (pipeline_extract url netRes jsRes domRes late).2 ∧
      Stage.dom ∉ (pipeline_extract url netRes jsRes domRes late).2) := by
  refine ⟨?_, ?_, ?_⟩
  · cases hv : is_valid_terabox_url url <;> cases netRes <;> cases jsRes <;>
      cases domRes <;> cases late <;> simp [pipeline_extract, hv]
  · intro s
    cases hv : is_valid_terabox_url url <;> cases netRes <;> cases jsRes <;>
      cases domRes <;> cases late <;> cases s <;>
      simp [pipeline_extract, hv, List.count_cons, List.count_nil]
  · intro d hd
    rw [hd]
    cases hv : is_valid_terabox_url url <;> simp [pipeline_extract, hv]

theorem c5_witness :
    Stage.javascript ∉ (pipeline_extract "https://terabox.com/s/abc".toList
      (some ⟨"https://d.terabox.example/f?sign=x".toList, none, some 2000000,
        some "video".toList⟩) none none none).2 ∧
    Stage.dom ∉ (pipeline_extract "https://terabox.com/s/abc".toList
      (some ⟨"https://d.terabox.example/f?sign=x".toList, none, some 2000000,
        some "video".toList⟩) none none none).2 :=
  (c5_pipeline_short_circuit _ _ none none none).2.2 _ rfl

theorem ewsLoop_step (max_retries : Nat) (f : Nat → ExtractionResult)
    (attempt : Nat) (last_error : Option (List Char)) (atts dels : Nat) :
    ewsLoop max_retries f attempt last_error atts dels =
      if attempt < max_retries then
        (if (f attempt).success then ⟨f attempt, atts + 1, dels⟩
         else ewsLoop max_retries f (attempt + 1) (f attempt).error (atts + 1)
           (if attempt < max_retries - 1 then dels + 1 else dels))
      else ⟨{ success := false, error := some (failMsg max_retries last_error) },
        atts, dels⟩ := by
  rw [ewsLoop.eq_def]

/-- C6: with a 3-attempt budget and every attempt failing, the retry loop
performs exactly 3 attempts and 2 inter-attempt delays and returns a failed
result whose message carries the last attempt's error; a failed result is
only returned with the budget exhausted; and the first successful attempt
returns immediately without consuming further attempts or delays. -/
theorem c6_retry_budget (f : Nat → ExtractionResult) :
    ((∀ i, i < 3 → (f i).success = false) →
      extract_with_stealth 3 f =
        ⟨{ success := false, error := some (failMsg 3 (f 2).error) }, 3, 2⟩) ∧
    ((extract_with_stealth 3 f).result.success = false →
      (extract_with_stealth 3 f).attempts = 3) ∧
    ((f 0).success = true → extract_with_stealth 3 f = ⟨f 0, 1, 0⟩) ∧
    ((f 0).success = false → (f 1).success = true →
      extract_with_stealth 3 f = ⟨f 1, 2, 1⟩) ∧
    ((f 0).success = false → (f 1).success = false → (f 2).success = true →
      extract_with_stealth 3 f = ⟨f 2, 3, 2⟩) := by
  refine ⟨?_, ?_, ?_, ?_, ?_⟩
  · intro h
    have h0 := h 0 (by norm_num)
    have h1 := h 1 (by norm_num)
    have h2 := h 2 (by norm_num)
    simp [extract_with_stealth, ewsLoop_step, h0, h1, h2]
  · intro h
    cases h0 : (f 0).success
    · cases h1 : (f 1).success
      · cases h2 : (f 2).success
        · simp [extract_with_stealth, ewsLoop_step, h0, h1, h2]
        · simp [extract_with_stealth, ewsLoop_step, h0, h1, h2] at h
      · simp [extract_with_stealth, ewsLoop_step, h0, h1] at h
    · simp [extract_with_stealth, ewsLoop_step, h0] at h
  · intro h0
    simp [extract_with_stealth, ewsLoop_step, h0]
  · intro h0 h1
    simp [extract_with_stealth, ewsLoop_step, h0, h1]
  · intro h0 h1 h2
    simp [extract_with_stealth, ewsLoop_step, h0, h1, h2]

theorem c6_witness :
    extract_with_stealth 3 failStub =
      ⟨{ success := false, error := some (failMsg 3 (failStub 2).error) }, 3, 2⟩ :=
  (c6_retry_budget failStub).1 (fun _ _ => rfl)

theorem fpOf_seeded (s : List Char) (hs : s ≠ []) (g : Rng) :
    fpOf (some s) g = (genFromSeeded (seedRng s)).1 := by
  show (if s = [] then genFromSeeded g else genFromSeeded (seedRng s)).1 =
    (genFromSeeded (seedRng s)).1
  rw [if_neg hs]

/-- C7 counterexample: the source tests `if seed:`, so the falsy empty seed
string takes the fresh-entropy branch — two calls of `generate` with the
same (empty) seed but different ambient entropy yield different
fingerprints, refuting "for every seed string, two calls with that same
seed produce identical Fingerprint values". -/
theorem c7_counterexample :
    fpOf (some "".toList) zeroRng ≠ fpOf (some "".toList) oneRng := by
  decide

/-- C7 (amended): fingerprint generation is deterministic in every
non-empty seed — `generate` with a truthy seed does not depend on the prior
generator state, so two calls with the same non-empty seed agree in every
field (the empty seed string is falsy under the source's `if seed:` test
and takes the fresh-entropy path) — and the two concrete seeds `alpha` and
`beta` produce different user-agent strings. -/
theorem c7_generate_deterministic :
    (∀ (seed : List Char), seed ≠ [] →
      ∀ (g g' : Rng), fpOf (some seed) g = fpOf (some seed) g') ∧
    (∀ (g g' : Rng),
      (fpOf (some "alpha".toList) g).user_agent ≠
        (fpOf (some "beta".toList) g').user_agent) := by
  constructor
  · intro seed hs g g'
    rw [fpOf_seeded seed hs g, fpOf_seeded seed hs g']
  · intro g g'
    rw [fpOf_seeded _ (by decide) g, fpOf_seeded _ (by decide) g']
    decide

theorem c7_witness :
    fpOf (some "alpha".toList) zeroRng = fpOf (some "alpha".toList) oneRng ∧
    (fpOf (some "alpha".toList) zeroRng).user_agent ≠
      (fpOf (some "beta".toList) zeroRng).user_agent :=
  ⟨c7_generate_deterministic.1 _ (by decide) zeroRng oneRng,
   c7_generate_deterministic.2 zeroRng zeroRng⟩

theorem rchoice_mem {α : Type} (l : List α) (d : α) (g : Rng) (h : l ≠ []) :
    (rchoice l d g).1 ∈ l := by
  unfold rchoice
  have hl : 0 < l.length := List.length_pos.mpr h
  have hlt : g.next.1 % l.length < l.length := Nat.mod_lt _ hl
  simp only [List.getD_eq_getElem?_getD, List.getElem?_eq_getElem hlt,
    Option.getD_some]
  exact List.getElem_mem hlt

theorem tz_locale_head : ∀ r ∈ TIMEZONES, r.langs.head? = some r.locale := by
  decide

theorem genAfterOs_props (b : Bool) (g1 : Rng) :
    (((genAfterOs b g1).1.platform = "Win32".toList ∧
        ((genAfterOs b g1).1.webgl_vendor, (genAfterOs b g1).1.webgl_renderer) ∈
          WEBGL_CONFIGS_WINDOWS) ∨
      ((genAfterOs b g1).1.platform = "MacIntel".toList ∧
        ((genAfterOs b g1).1.webgl_vendor, (genAfterOs b g1).1.webgl_renderer) ∈
          WEBGL_CONFIGS_MAC)) ∧
    (genAfterOs b g1).1.languages.head? = some (genAfterOs b g1).1.locale ∧
    (genAfterOs b g1).1.screen.width = (genAfterOs b g1).1.viewport.width ∧
    (genAfterOs b g1).1.viewport.height ≤ (genAfterOs b g1).1.screen.height := by
  cases b with
  | false =>
    refine ⟨Or.inr ⟨rfl, ?_⟩, ?_, rfl, ?_⟩
    · obtain ⟨gx, hx⟩ :
          ∃ gx, ((genAfterOs false g1).1.webgl_vendor,
              (genAfterOs false g1).1.webgl_renderer) =
            (rchoice WEBGL_CONFIGS_MAC ("Apple Inc.".toList, []) gx).1 := ⟨_, rfl⟩
      rw [hx]
      exact rchoice_mem _ _ _ (by decide)
    · obtain ⟨gx, h1, h2⟩ :
          ∃ gx, (genAfterOs false g1).1.languages =
              (rchoice TIMEZONES ⟨"America/New_York".toList,
                ["en-US".toList, "en".toList], "en-US".toList, 12/100⟩ gx).1.langs ∧
            (genAfterOs false g1).1.locale =
              (rchoice TIMEZONES ⟨"America/New_York".toList,
                ["en-US".toList, "en".toList], "en-US".toList, 12/100⟩ gx).1.locale :=
        ⟨_, rfl, rfl⟩
      rw [h1, h2]
      exact tz_locale_head _ (rchoice_mem _ _ _ (by decide))
    · obtain ⟨off, hoff⟩ :
          ∃ off, (genAfterOs false g1).1.screen.height =
            (genAfterOs false g1).1.viewport.height + off := ⟨_, rfl⟩
      rw [hoff]
      exact Nat.le_add_right _ _
  | true =>
    refine ⟨Or.inl ⟨rfl, ?_⟩, ?_, rfl, ?_⟩
    · obtain ⟨gx, hx⟩ :
          ∃ gx, ((genAfterOs true g1).1.webgl_vendor,
              (genAfterOs true g1).1.webgl_renderer) =
            (rchoice WEBGL_CONFIGS_WINDOWS ("Google Inc. (NVIDIA)".toList, []) gx).1 :=
        ⟨_, rfl⟩
      rw [hx]
      exact rchoice_mem _ _ _ (by decide)
    · obtain ⟨gx, h1, h2⟩ :
          ∃ gx, (genAfterOs true g1).1.languages =
              (rchoice TIMEZONES ⟨"America/New_York".toList,
                ["en-US".toList, "en".toList], "en-US".toList, 12/100⟩ gx).1.langs ∧
            (genAfterOs true g1).1.locale =
              (rchoice TIMEZONES ⟨"America/New_York".toList,
                ["en-US".toList, "en".toList], "en-US".toList, 12/100⟩ gx).1.locale :=
        ⟨_, rfl, rfl⟩
      rw [h1, h2]
      exact tz_locale_head _ (rchoice_mem _ _ _ (by decide))
    · obtain ⟨off, hoff⟩ :
          ∃ off, (genAfterOs true g1).1.screen.height =
            (genAfterOs true g1).1.viewport.height + off := ⟨_, rfl⟩
      rw [hoff]
      exact Nat.le_add_right _ _

theorem genFromSeeded_props (g0 : Rng) :
    (((genFromSeeded g0).1.platform = "Win32".toList ∧
        ((genFromSeeded g0).1.webgl_vendor, (genFromSeeded g0).1.webgl_renderer) ∈
          WEBGL_CONFIGS_WINDOWS) ∨
      ((genFromSeeded g0).1.platform = "MacIntel".toList ∧
        ((genFromSeeded g0).1.webgl_vendor, (genFromSeeded g0).1.webgl_renderer) ∈
          WEBGL_CONFIGS_MAC)) ∧
    (genFromSeeded g0).1.languages.head? = some (genFromSeeded g0).1.locale ∧
    (genFromSeeded g0).1.screen.width = (genFromSeeded g0).1.viewport.width ∧
    (genFromSeeded g0).1.viewport.height ≤ (genFromSeeded g0).1.screen.height :=
  genAfterOs_props (rchoiceOsIsWindows g0).1 (rchoiceOsIsWindows g0).2

/-- C8: every generated fingerprint is cross-field consistent — its WebGL
vendor/renderer pair comes from the catalog matching its platform, its
locale is the first entry of its languages list, and its screen matches the
viewport width and is at least the viewport height. -/
theorem c8_fingerprint_consistency (seed : Option (List Char)) (g : Rng) :
    (((fpOf seed g).platform = "Win32".toList ∧
        ((fpOf seed g).webgl_vendor, (fpOf seed g).webgl_renderer) ∈
          WEBGL_CONFIGS_WINDOWS) ∨
      ((fpOf seed g).platform = "MacIntel".toList ∧
        ((fpOf seed g).webgl_vendor, (fpOf seed g).webgl_renderer) ∈
          WEBGL_CONFIGS_MAC)) ∧
    (fpOf seed g).languages.head? = some (fpOf seed g).locale ∧
    (fpOf seed g).screen.width = (fpOf seed g).viewport.width ∧
    (fpOf seed g).viewport.height ≤ (fpOf seed g).screen.height := by
  cases seed with
  | none => exact genFromSeeded_props g
  | some s =>
    rcases eq_or_ne s [] with hs | hs
    · subst hs
      exact genFromSeeded_props g
    · rw [fpOf_seeded s hs g]
      exact genFromSeeded_props (seedRng s)

/-- C9: the result builder always returns a successful `ExtractionResult`
carrying the stage's URL, even for a URL that `validate_extracted_url`
rejects — validation is advisory and never alters the returned result. -/
theorem c9_validation_advisory :
    (∀ (data : LayerData) (layer : List Char),
      (build_result data layer).success = true ∧
      (build_result data layer).download_url = some data.url ∧
      (build_result data layer).filesize = data.filesize ∧
      (build_result data layer).layer_used = some layer) ∧
    (validate_extracted_url "https://example.com/page".toList none).1 = false ∧
    (build_result ⟨"https://example.com/page".toList, none, none, none⟩
      "dom".toList).success = true ∧
    (build_result ⟨"https://example.com/page".toList, none, none, none⟩
      "dom".toList).download_url = some "https://example.com/page".toList :=
  ⟨fun _ _ => ⟨rfl, rfl, rfl, rfl⟩, by decide, rfl, rfl⟩
